import Mathlib

/-!
Verification of the dispatch engine of the `openclaw-linear-plugin` repository.

Shallow embedding of:
- `dispatch-state.ts` (file-backed dispatch store: register / complete /
  updateStatus / remove / prune, and the read path),
- `watchdog.ts` (the `InactivityWatchdog` class),
- `agent.ts` (the `runAgent` retry loop and the streaming callbacks of the
  embedded runner),
- the CAS `transitionDispatch` primitive of the v2 store, which is exercised
  by `dispatch-state.test.ts` but whose implementation file is not part of
  the snapshot; it is modelled from the specification text (§4.2).

Machine timestamps (`Date.now()`, ISO strings passed through
`new Date(x).getTime()`) are modelled as integers (milliseconds).
JavaScript objects keyed by strings are modelled as association lists with
JavaScript semantics: assignment replaces in place or appends, `delete`
removes the key, `Object.entries` iterates in insertion order.
-/

namespace OpenClawLinear

-- ---------------------------------------------------------------------------
-- String-keyed maps (JavaScript `Record<string, T>`)
-- ---------------------------------------------------------------------------

/-- Association map with string keys, modelling a JS object. -/
abbrev SMap (α : Type) := List (String × α)

/-- Key lookup (`obj[key]`, `undefined` becomes `none`). -/
def mlookup {α : Type} : SMap α → String → Option α
  | [], _ => none
  | (k, v) :: t, key => if k = key then some v else mlookup t key

/-- Key assignment (`obj[key] = v`): replaces in place, appends when new. -/
def mset {α : Type} : SMap α → String → α → SMap α
  | [], key, v => [(key, v)]
  | (k, w) :: t, key, v => if k = key then (key, v) :: t else (k, w) :: mset t key v

/-- Key removal (`delete obj[key]`). -/
def mdel {α : Type} (l : SMap α) (key : String) : SMap α :=
  l.filter (fun p => !(p.1 == key))

-- ---------------------------------------------------------------------------
-- dispatch-state.ts — types
-- ---------------------------------------------------------------------------

/-- Complexity tier (`Tier` in dispatch-state.ts). -/
inductive Tier
  | junior
  | medior
  | senior
deriving DecidableEq, Repr

/-- Status of an active dispatch in the v1 store (`"dispatched" | "running" | "failed"`). -/
inductive ActiveStatus
  | dispatched
  | running
  | failed
deriving DecidableEq, Repr

/-- Status of a completed dispatch (`"done" | "failed"`). -/
inductive CompletedStatus
  | done
  | failed
deriving DecidableEq, Repr

/-- `ActiveDispatch` record of dispatch-state.ts. `dispatchedAt` (an ISO string
read back through `new Date(...).getTime()`) is modelled as a millisecond
integer. -/
structure ActiveDispatch where
  issueId : String
  issueIdentifier : String
  worktreePath : String
  branch : String
  tier : Tier
  model : String
  status : ActiveStatus
  dispatchedAt : Int
  agentSessionId : Option String := none
  project : Option String := none
deriving DecidableEq, Repr

/-- `CompletedDispatch` record of dispatch-state.ts. -/
structure CompletedDispatch where
  issueIdentifier : String
  tier : Tier
  status : CompletedStatus
  completedAt : Int
  prUrl : Option String := none
  project : Option String := none
deriving DecidableEq, Repr

/-- Argument of `completeDispatch` (`Omit<CompletedDispatch, "issueIdentifier">`). -/
structure CompletedResult where
  tier : Tier
  status : CompletedStatus
  completedAt : Int
  prUrl : Option String := none
  project : Option String := none
deriving DecidableEq, Repr

/-- The persisted `DispatchState` document. -/
structure DispatchState where
  active : SMap ActiveDispatch
  completed : SMap CompletedDispatch
deriving DecidableEq, Repr

/-- `emptyState()` of dispatch-state.ts. -/
def emptyState : DispatchState := { active := [], completed := [] }

-- ---------------------------------------------------------------------------
-- dispatch-state.ts — operations
-- ---------------------------------------------------------------------------

/-- `registerDispatch`: unconditionally stores the given record under the
identifier (`data.dispatches.active[issueIdentifier] = dispatch`). -/
def registerDispatch (issueIdentifier : String) (dispatch : ActiveDispatch)
    (s : DispatchState) : DispatchState :=
  { s with active := mset s.active issueIdentifier dispatch }

/-- `completeDispatch`: deletes the active record (if any) and writes a
completed record; `tier` falls back as `active?.tier ?? result.tier` and
`project` as `active?.project ?? result.project`. -/
def completeDispatch (issueIdentifier : String) (result : CompletedResult)
    (s : DispatchState) : DispatchState :=
  let active := mlookup s.active issueIdentifier
  { active := mdel s.active issueIdentifier
    completed := mset s.completed issueIdentifier
      { issueIdentifier := issueIdentifier
        tier := match active with
          | some a => a.tier
          | none => result.tier
        status := result.status
        completedAt := result.completedAt
        prUrl := result.prUrl
        project := (active.bind (fun a => a.project)).orElse (fun _ => result.project) } }

/-- `updateDispatchStatus`: sets `status` on the active record when present;
writes nothing when the record is missing. -/
def updateDispatchStatus (issueIdentifier : String) (status : ActiveStatus)
    (s : DispatchState) : DispatchState :=
  match mlookup s.active issueIdentifier with
  | some d => { s with active := mset s.active issueIdentifier { d with status := status } }
  | none => s

/-- `removeActiveDispatch`: drops the active record. -/
def removeActiveDispatch (issueIdentifier : String) (s : DispatchState) : DispatchState :=
  { s with active := mdel s.active issueIdentifier }

/-- The `for (const [key, entry] of Object.entries(...))` loop body of
`pruneCompleted`: deletes entries older than `maxAgeMs` from the document
and counts them. -/
def pruneLoop (now maxAgeMs : Int) :
    List (String × CompletedDispatch) → DispatchState → Nat → DispatchState × Nat
  | [], s, pruned => (s, pruned)
  | (key, entry) :: rest, s, pruned =>
    if now - entry.completedAt > maxAgeMs then
      pruneLoop now maxAgeMs rest { s with completed := mdel s.completed key } (pruned + 1)
    else
      pruneLoop now maxAgeMs rest s pruned

/-- `pruneCompleted(maxAgeMs)`: iterates over a snapshot of the completed
entries, deleting stale ones; returns the updated document and the count. -/
def pruneCompleted (now maxAgeMs : Int) (s : DispatchState) : DispatchState × Nat :=
  pruneLoop now maxAgeMs s.completed s 0

/-- `readDispatchState`: given the state-file content (`none` = ENOENT) and the
`JSON.parse`-plus-cast step, returns the parsed document or the raised error,
together with the file content after the call (the read path performs no
write, so the file passes through unchanged). -/
def readDispatchState (parseJson : String → Except String DispatchState)
    (file : Option String) : Except String DispatchState × Option String :=
  match file with
  | none => (.ok emptyState, none)
  | some raw => (parseJson raw, some raw)

-- ---------------------------------------------------------------------------
-- Store operation sequences (for reachability over the v1 store)
-- ---------------------------------------------------------------------------

/-- One mutating store operation of dispatch-state.ts. -/
inductive StoreOp where
  | register (issueIdentifier : String) (dispatch : ActiveDispatch)
  | complete (issueIdentifier : String) (result : CompletedResult)
  | update (issueIdentifier : String) (status : ActiveStatus)
  | remove (issueIdentifier : String)
  | prune (now maxAgeMs : Int)
deriving DecidableEq, Repr

/-- Apply one store operation to the persisted document. -/
def applyOp (s : DispatchState) : StoreOp → DispatchState
  | .register issueIdentifier d => registerDispatch issueIdentifier d s
  | .complete issueIdentifier r => completeDispatch issueIdentifier r s
  | .update issueIdentifier st => updateDispatchStatus issueIdentifier st s
  | .remove issueIdentifier => removeActiveDispatch issueIdentifier s
  | .prune now maxAgeMs => (pruneCompleted now maxAgeMs s).1

/-- Run a sequence of store operations from the empty document. -/
def runOps (ops : List StoreOp) : DispatchState := ops.foldl applyOp emptyState

/-- No identifier is present in both `active` and `completed`. -/
def exclusivePresence (s : DispatchState) : Prop :=
  ∀ issueIdentifier : String,
    ¬((mlookup s.active issueIdentifier).isSome ∧ (mlookup s.completed issueIdentifier).isSome)

/-- States reachable from the empty document when `registerDispatch` is never
applied to an identifier that is currently in `completed`. -/
inductive ReachableNoRereg : DispatchState → Prop where
  | empty : ReachableNoRereg emptyState
  | register {s : DispatchState} (issueIdentifier : String) (d : ActiveDispatch)
      (hs : ReachableNoRereg s)
      (hfresh : mlookup s.completed issueIdentifier = none) :
      ReachableNoRereg (registerDispatch issueIdentifier d s)
  | complete {s : DispatchState} (issueIdentifier : String) (r : CompletedResult)
      (hs : ReachableNoRereg s) :
      ReachableNoRereg (completeDispatch issueIdentifier r s)
  | update {s : DispatchState} (issueIdentifier : String) (st : ActiveStatus)
      (hs : ReachableNoRereg s) :
      ReachableNoRereg (updateDispatchStatus issueIdentifier st s)
  | remove {s : DispatchState} (issueIdentifier : String)
      (hs : ReachableNoRereg s) :
      ReachableNoRereg (removeActiveDispatch issueIdentifier s)
  | prune {s : DispatchState} (now maxAgeMs : Int)
      (hs : ReachableNoRereg s) :
      ReachableNoRereg (pruneCompleted now maxAgeMs s).1

-- ---------------------------------------------------------------------------
-- Sample records used as concrete inputs
-- ---------------------------------------------------------------------------

/-- A concrete active dispatch (mirrors `makeDispatch()` of the test file). -/
def sampleActive : ActiveDispatch :=
  { issueId := "uuid-1"
    issueIdentifier := "API-100"
    worktreePath := "/tmp/wt/API-100"
    branch := "codex/API-100"
    tier := .junior
    model := "test-model"
    status := .dispatched
    dispatchedAt := 1000 }

/-- A concrete active dispatch with non-default `status` and `dispatchedAt`. -/
def sampleRunning : ActiveDispatch :=
  { sampleActive with status := .running, dispatchedAt := 999 }

/-- A concrete completion result. -/
def sampleResult : CompletedResult :=
  { tier := .junior, status := .done, completedAt := 2000 }

/-- A concrete completion result carrying a `project`. -/
def sampleResultProj : CompletedResult :=
  { sampleResult with project := some "proj-x" }

/-- A concrete completed record that is stale at `now = 10000`, `maxAgeMs = 1000`. -/
def staleEntry : CompletedDispatch :=
  { issueIdentifier := "OLD-1", tier := .junior, status := .done, completedAt := 1000 }

/-- A concrete completed record that is fresh at `now = 10000`, `maxAgeMs = 1000`. -/
def freshEntry : CompletedDispatch :=
  { issueIdentifier := "NEW-1", tier := .senior, status := .failed, completedAt := 9800 }

/-- A concrete document with one active dispatch and two completed records. -/
def sampleStateC : DispatchState :=
  { active := [("API-100", sampleActive)]
    completed := [("OLD-1", staleEntry), ("NEW-1", freshEntry)] }

/-- A concrete stand-in for the `JSON.parse` step that always raises. -/
def badParse : String → Except String DispatchState :=
  fun _ => .error "SyntaxError: Unexpected token"

-- ---------------------------------------------------------------------------
-- watchdog.ts — InactivityWatchdog
-- ---------------------------------------------------------------------------

/-- Behaviour of the user-supplied `onKill` callback: it may return normally,
throw synchronously, or return a promise that rejects. -/
inductive KillOutcome
  | ok
  | throwsSync
  | rejectsAsync
deriving DecidableEq, Repr

/-- Instance state of `InactivityWatchdog`. `timer` is the absolute deadline of
the pending `setTimeout` check (`none` when no timer is live). `kills` counts
the `onKill` invocations and `lastKillReason` records the reason passed —
both are instrumentation of the call sites, not stored fields of the class. -/
structure Watchdog where
  inactivityMs : Int
  lastActivityAt : Int
  killed : Bool
  started : Bool
  timer : Option Int
  kills : Nat
  lastKillReason : Option String
deriving DecidableEq, Repr

/-- Constructor: `lastActivityAt = Date.now()`, no timer, not started. -/
def Watchdog.init (inactivityMs now : Int) : Watchdog :=
  { inactivityMs := inactivityMs
    lastActivityAt := now
    killed := false
    started := false
    timer := none
    kills := 0
    lastKillReason := none }

/-- `scheduleCheck()`: arms a timer for
`max(1000, inactivityMs - (Date.now() - lastActivityAt))` milliseconds. -/
def scheduleCheck (now : Int) (w : Watchdog) : Watchdog :=
  { w with timer := some (now + max 1000 (w.inactivityMs - (now - w.lastActivityAt))) }

/-- `start()`: idempotent; records activity and schedules the first check. -/
def Watchdog.start (now : Int) (w : Watchdog) : Watchdog :=
  if w.started then w
  else scheduleCheck now { w with started := true, lastActivityAt := now }

/-- `tick()`: records activity; does not touch the timer. -/
def Watchdog.tick (now : Int) (w : Watchdog) : Watchdog :=
  { w with lastActivityAt := now }

/-- `stop()`: clears any pending timer and un-sets `started`. -/
def Watchdog.stop (w : Watchdog) : Watchdog :=
  { w with timer := none, started := false }

/-- Mirror of the catch-all error handling around `onKill`: a synchronous
throw is absorbed by the surrounding `try`/`catch` (log only) and an
asynchronous rejection by the `.catch` attached to the returned promise
(log only); the value is the error escaping the check callback. -/
def swallowKillError : KillOutcome → Option String
  | .ok => none
  | .throwsSync => none
  | .rejectsAsync => none

/-- The deferred check callback body of `scheduleCheck` (the `setTimeout`
closure). Firing consumes the timer handle. Returns the new state and the
error (if any) escaping the callback. -/
def fireCheck (o : KillOutcome) (now : Int) (w : Watchdog) : Watchdog × Option String :=
  let w0 := { w with timer := none }
  if w0.killed || !w0.started then (w0, none)
  else
    let silence := now - w0.lastActivityAt
    if silence ≥ w0.inactivityMs then
      ({ w0 with
          killed := true
          kills := w0.kills + 1
          lastKillReason := some "inactivity" }, swallowKillError o)
    else
      (scheduleCheck now w0, none)

/-- One external event in the life of a watchdog instance. A `fire` happens
only when a live timer exists (a cleared timeout never runs). -/
inductive WEvent where
  | start (now : Int)
  | tick (now : Int)
  | stop
  | fire (now : Int) (o : KillOutcome)
deriving DecidableEq, Repr

/-- Step the watchdog by one event. -/
def wstep (w : Watchdog) : WEvent → Watchdog
  | .start now => w.start now
  | .tick now => w.tick now
  | .stop => w.stop
  | .fire now o => if w.timer.isSome then (fireCheck o now w).1 else w

/-- Run a watchdog instance over an event interleaving. -/
def runWatchdog (inactivityMs now0 : Int) (evs : List WEvent) : Watchdog :=
  evs.foldl wstep (Watchdog.init inactivityMs now0)

-- ---------------------------------------------------------------------------
-- agent.ts — runAgent retry loop
-- ---------------------------------------------------------------------------

/-- `AgentRunResult`; an absent `watchdogKilled` is the same as `false` under
the `!result.watchdogKilled` test. -/
structure AgentRunResult where
  success : Bool
  output : String
  watchdogKilled : Bool := false
deriving DecidableEq, Repr

/-- `maxAttempts` constant of `runAgent`. -/
def maxAttempts : Nat := 2

/-- The `for (let attempt = 0; attempt < maxAttempts; attempt++)` loop of
`runAgent`, indexed by the remaining iterations; `runOnce attempt` is the
outcome of the `attempt`-th `runAgentOnce` call. Returns the result together
with the number of attempts performed. -/
def runAgentGo (runOnce : Nat → AgentRunResult) : Nat → Nat → AgentRunResult × Nat
  | attempt, 0 => ({ success := false, output := "Watchdog retry exhausted" }, attempt)
  | attempt, remaining + 1 =>
    let result := runOnce attempt
    if result.success || !result.watchdogKilled || attempt == maxAttempts - 1 then
      (result, attempt + 1)
    else
      runAgentGo runOnce (attempt + 1) remaining

/-- `runAgent`: up to `maxAttempts` sequential single runs. -/
def runAgent (runOnce : Nat → AgentRunResult) : AgentRunResult × Nat :=
  runAgentGo runOnce 0 maxAttempts

-- ---------------------------------------------------------------------------
-- agent.ts — embedded-run streaming callbacks
-- ---------------------------------------------------------------------------

/-- An activity emitted to the Linear sink (`ActivityContent`). -/
inductive Activity where
  | thought (body : String)
  | action (action parameter : String)
  | errorNote (body : String)
deriving DecidableEq, Repr

/-- JavaScript `String.prototype.trim()`: strips leading and trailing
whitespace. Written over the character list so it evaluates in the kernel. -/
def jsTrim (s : String) : String :=
  String.mk (((s.data.dropWhile Char.isWhitespace).reverse.dropWhile Char.isWhitespace).reverse)

/-- JavaScript `text.slice(0, 500)`. -/
def jsSlice500 (s : String) : String :=
  String.mk (s.data.take 500)

/-- `onReasoningStream` callback: ticks the watchdog, then emits a "thought"
with the trimmed text cut to 500 characters when
`text && text.length > 10`. Returns the emissions and whether it ticked. -/
def onReasoningStream (payloadText : Option String) : List Activity × Bool :=
  match payloadText with
  | none => ([], true)
  | some raw =>
    let text := jsTrim raw
    (if text ≠ "" ∧ text.length > 10 then [Activity.thought (jsSlice500 text)] else [], true)

/-- `onPartialReply` callback: ticks the watchdog and emits nothing. -/
def onPartialReply (payloadText : Option String) : List Activity × Bool :=
  ([], true)

-- ---------------------------------------------------------------------------
-- v2 store — CAS transitionDispatch (modelled from the spec)
-- ---------------------------------------------------------------------------

/-- Modelled from the spec: `DispatchStatus` enumeration
`{dispatched, working, auditing, done, failed, stuck}` (§3). The
implementation file of the v2 store is not in the snapshot; only its test
file is. -/
inductive DStatus
  | dispatched
  | working
  | auditing
  | done
  | failed
  | stuck
deriving DecidableEq, Repr

/-- Modelled from the spec: the legal-transition graph of §4.2 —
`dispatched → working → auditing → done`, rework `auditing → working`, and
`stuck` from any non-terminal status (`dispatched`, `working`, `auditing`). -/
def legalTransition : DStatus → DStatus → Bool
  | .dispatched, .working => true
  | .working, .auditing => true
  | .auditing, .done => true
  | .auditing, .working => true
  | .dispatched, .stuck => true
  | .working, .stuck => true
  | .auditing, .stuck => true
  | _, _ => false

/-- Modelled from the spec: the v2 `ActiveDispatch` record (§3), with
`attempt`, `stuckReason` and the session-key linkage fields. -/
structure ActiveDispatchV2 where
  issueId : String := ""
  issueIdentifier : String
  worktreePath : String := ""
  branch : String := ""
  tier : Tier := .junior
  model : String := ""
  status : DStatus
  dispatchedAt : Int := 0
  attempt : Nat := 0
  stuckReason : Option String := none
  workerSessionKey : Option String := none
  auditSessionKey : Option String := none
  agentSessionId : Option String := none
  project : Option String := none
deriving DecidableEq, Repr

/-- Modelled from the spec: the optional `patch` of `transition` — it "may
update `attempt`, `stuckReason`, `workerSessionKey`, `auditSessionKey`,
`agentSessionId`" (§4.2); a `none` field is an absent key. -/
structure TransitionPatch where
  attempt : Option Nat := none
  stuckReason : Option String := none
  workerSessionKey : Option String := none
  auditSessionKey : Option String := none
  agentSessionId : Option String := none
deriving DecidableEq, Repr

/-- Apply a (possibly absent) patch to a record. -/
def applyPatch (d : ActiveDispatchV2) : Option TransitionPatch → ActiveDispatchV2
  | none => d
  | some p =>
    { d with
        attempt := p.attempt.getD d.attempt
        stuckReason := (p.stuckReason.map some).getD d.stuckReason
        workerSessionKey := (p.workerSessionKey.map some).getD d.workerSessionKey
        auditSessionKey := (p.auditSessionKey.map some).getD d.auditSessionKey
        agentSessionId := (p.agentSessionId.map some).getD d.agentSessionId }

/-- Modelled from the spec: `TransitionError` carries identifier, expected,
actual and target (§6); the record-missing case is the test-visible
"No active dispatch" error. -/
inductive TransitionError where
  | missing (issueIdentifier : String)
  | mismatch (issueIdentifier : String) (expected actual : DStatus)
  | illegal (issueIdentifier : String) (fromStatus toStatus : DStatus)
deriving DecidableEq, Repr

/-- Active table of the v2 document (the part `transitionDispatch` touches). -/
structure StateV2 where
  active : SMap ActiveDispatchV2
deriving DecidableEq, Repr

/-- Modelled from the spec: `transition(identifier, expectedFrom, to, patch?)`
— CAS; fails with `TransitionError` when the record is missing, the current
status differs from `expectedFrom`, or the edge is illegal; on success the
status is set and the patch applied (§4.2). -/
def transitionDispatch (issueIdentifier : String) (expectedFrom toStatus : DStatus)
    (patch : Option TransitionPatch) (s : StateV2) :
    Except TransitionError (StateV2 × ActiveDispatchV2) :=
  match mlookup s.active issueIdentifier with
  | none => .error (.missing issueIdentifier)
  | some d =>
    if d.status ≠ expectedFrom then
      .error (.mismatch issueIdentifier expectedFrom d.status)
    else if !(legalTransition expectedFrom toStatus) then
      .error (.illegal issueIdentifier expectedFrom toStatus)
    else
      let updated := applyPatch { d with status := toStatus } patch
      .ok ({ active := mset s.active issueIdentifier updated }, updated)

/-- Modelled from the spec: the store's locked `mutate` (§4.1) — apply the
state transformer; when it throws, the persisted document is unchanged. -/
def mutateStore {α : Type} (fn : StateV2 → Except TransitionError (StateV2 × α))
    (s : StateV2) : StateV2 × Except TransitionError α :=
  match fn s with
  | .ok (s2, a) => (s2, .ok a)
  | .error e => (s, .error e)

-- ---------------------------------------------------------------------------
-- Concrete instances used as witness inputs
-- ---------------------------------------------------------------------------

/-- A concrete watchdog instance that is started, not killed, with a live
timer, 120 s threshold and last activity at time 0. -/
def wdogW : Watchdog :=
  { inactivityMs := 120000
    lastActivityAt := 0
    killed := false
    started := true
    timer := some 120000
    kills := 0
    lastKillReason := none }

/-- A concrete run profile: the first attempt is killed by the watchdog, the
second succeeds. -/
def killedRun : Nat → AgentRunResult :=
  fun n =>
    if n = 0 then { success := false, output := "stalled", watchdogKilled := true }
    else { success := true, output := "done" }

/-- A concrete reasoning chunk longer than 10 characters. -/
def longReasoning : String := "Consider the failing edge case"

/-- A concrete v2 active record in status `dispatched`. -/
def dV2 : ActiveDispatchV2 :=
  { issueIdentifier := "API-100", status := .dispatched }

/-- A concrete v2 document holding `dV2`. -/
def sV2 : StateV2 := { active := [("API-100", dV2)] }

/-- A concrete patch storing a worker session key. -/
def patchW : TransitionPatch := { workerSessionKey := some "sess-w-1" }

/-- The kill-count bookkeeping invariant: `kills` is 1 when `killed` and 0
otherwise. -/
def killInv (w : Watchdog) : Prop :=
  w.kills = if w.killed then 1 else 0

-- ---------------------------------------------------------------------------
-- Map lemmas
-- ---------------------------------------------------------------------------

theorem mlookup_mset {α : Type} (l : SMap α) (k : String) (v : α) (k2 : String) :
    mlookup (mset l k v) k2 = if k = k2 then some v else mlookup l k2 := by
  induction l with
  | nil => simp [mset, mlookup]
  | cons p t ih =>
    rcases p with ⟨a, b⟩
    by_cases h1 : a = k <;> by_cases h2 : k = k2 <;> by_cases h3 : a = k2 <;>
      simp_all [mset, mlookup]

theorem mlookup_mdel {α : Type} (l : SMap α) (k k2 : String) :
    mlookup (mdel l k) k2 = if k = k2 then none else mlookup l k2 := by
  induction l with
  | nil => simp [mdel, mlookup]
  | cons p t ih =>
    rcases p with ⟨a, b⟩
    by_cases h1 : a = k <;> by_cases h2 : k = k2 <;> by_cases h3 : a = k2 <;>
      simp_all [mdel, mlookup, List.filter_cons]

theorem isSome_of_mdel {α : Type} {l : SMap α} {k k2 : String}
    (h : (mlookup (mdel l k) k2).isSome) : (mlookup l k2).isSome := by
  rw [mlookup_mdel] at h
  by_cases hk : k = k2
  · simp [hk] at h
  · simpa [hk] using h

theorem pruneLoop_active (now maxAgeMs : Int) (entries : List (String × CompletedDispatch))
    (s : DispatchState) (p : Nat) :
    (pruneLoop now maxAgeMs entries s p).1.active = s.active := by
  induction entries generalizing s p with
  | nil => simp [pruneLoop]
  | cons e rest ih =>
    rcases e with ⟨key, entry⟩
    by_cases h : now - entry.completedAt > maxAgeMs <;> simp [pruneLoop, h, ih]

theorem pruneLoop_completed_isSome (now maxAgeMs : Int)
    (entries : List (String × CompletedDispatch)) (s : DispatchState) (p : Nat) (k : String)
    (h : (mlookup (pruneLoop now maxAgeMs entries s p).1.completed k).isSome) :
    (mlookup s.completed k).isSome := by
  induction entries generalizing s p with
  | nil => simpa [pruneLoop] using h
  | cons e rest ih =>
    rcases e with ⟨key, entry⟩
    by_cases hc : now - entry.completedAt > maxAgeMs
    · simp only [pruneLoop, if_pos hc] at h
      exact isSome_of_mdel (ih _ _ h)
    · simp only [pruneLoop, if_neg hc] at h
      exact ih _ _ h

-- ---------------------------------------------------------------------------
-- C1 — exclusive presence
-- ---------------------------------------------------------------------------

/-- C1 (counterexample): the sequence `register "API-100"; complete "API-100";
register "API-100"` is a sequence of store operations from the empty document
whose final state has `"API-100"` present in `active` and in `completed` at
the same time, refuting exclusive presence as claimed. -/
theorem C1_counterexample :
    (mlookup (runOps [.register "API-100" sampleActive,
        .complete "API-100" sampleResult,
        .register "API-100" sampleActive]).active "API-100").isSome = true ∧
    (mlookup (runOps [.register "API-100" sampleActive,
        .complete "API-100" sampleResult,
        .register "API-100" sampleActive]).completed "API-100").isSome = true := by
  constructor <;> rfl

/-- C1 (amended): every state reachable from the empty document by store
operations in which `registerDispatch` is never applied to an identifier
currently present in `completed` satisfies exclusive presence: no
`issueIdentifier` is in both `dispatches.active` and `dispatches.completed`. -/
theorem C1_exclusive_presence (s : DispatchState) (h : ReachableNoRereg s) :
    exclusivePresence s := by
  induction h with
  | empty =>
    intro i
    rintro ⟨ha, _⟩
    simp [emptyState, mlookup] at ha
  | @register s issueIdentifier d hs hfresh ih =>
    intro i
    rintro ⟨ha, hc⟩
    have hc2 : (mlookup s.completed i).isSome = true := hc
    by_cases hik : issueIdentifier = i
    · subst hik
      rw [hfresh] at hc2
      simp at hc2
    · have ha2 : (mlookup (mset s.active issueIdentifier d) i).isSome = true := ha
      rw [mlookup_mset, if_neg hik] at ha2
      exact ih i ⟨ha2, hc2⟩
  | @complete s issueIdentifier r hs ih =>
    intro i
    rintro ⟨ha, hc⟩
    have ha2 : (mlookup (mdel s.active issueIdentifier) i).isSome = true := ha
    rw [mlookup_mdel] at ha2
    by_cases hik : issueIdentifier = i
    · rw [if_pos hik] at ha2
      simp at ha2
    · rw [if_neg hik] at ha2
      have hc2 : (mlookup (mset s.completed issueIdentifier
          { issueIdentifier := issueIdentifier
            tier := match mlookup s.active issueIdentifier with
              | some a => a.tier
              | none => r.tier
            status := r.status
            completedAt := r.completedAt
            prUrl := r.prUrl
            project := ((mlookup s.active issueIdentifier).bind
              (fun a => a.project)).orElse (fun _ => r.project) }) i).isSome = true := hc
      rw [mlookup_mset, if_neg hik] at hc2
      exact ih i ⟨ha2, hc2⟩
  | @update s issueIdentifier st hs ih =>
    intro i
    rintro ⟨ha, hc⟩
    cases hm : mlookup s.active issueIdentifier with
    | none =>
      have ha2 : (mlookup (updateDispatchStatus issueIdentifier st s).active i).isSome = true := ha
      have hc2 : (mlookup (updateDispatchStatus issueIdentifier st s).completed i).isSome = true := hc
      simp only [updateDispatchStatus, hm] at ha2 hc2
      exact ih i ⟨ha2, hc2⟩
    | some d =>
      have hc2 : (mlookup s.completed i).isSome = true := by
        have hc3 : (mlookup (updateDispatchStatus issueIdentifier st s).completed i).isSome
            = true := hc
        simp only [updateDispatchStatus, hm] at hc3
        exact hc3
      have ha2 : (mlookup (mset s.active issueIdentifier { d with status := st }) i).isSome
          = true := by
        have ha3 : (mlookup (updateDispatchStatus issueIdentifier st s).active i).isSome
            = true := ha
        simp only [updateDispatchStatus, hm] at ha3
        exact ha3
      by_cases hik : issueIdentifier = i
      · subst hik
        refine ih issueIdentifier ⟨?_, hc2⟩
        rw [hm]
        rfl
      · rw [mlookup_mset, if_neg hik] at ha2
        exact ih i ⟨ha2, hc2⟩
  | @remove s issueIdentifier hs ih =>
    intro i
    rintro ⟨ha, hc⟩
    have ha2 : (mlookup (mdel s.active issueIdentifier) i).isSome = true := ha
    have hc2 : (mlookup s.completed i).isSome = true := hc
    exact ih i ⟨isSome_of_mdel ha2, hc2⟩
  | @prune s now maxAgeMs hs ih =>
    intro i
    rintro ⟨ha, hc⟩
    have ha2 : (mlookup (pruneLoop now maxAgeMs s.completed s 0).1.active i).isSome = true := ha
    have hc2 : (mlookup (pruneLoop now maxAgeMs s.completed s 0).1.completed i).isSome = true := hc
    rw [pruneLoop_active] at ha2
    exact ih i ⟨ha2, pruneLoop_completed_isSome _ _ _ _ _ _ hc2⟩

/-- C1 (witness): the amended invariant evaluated on the concrete reachable
state `register "API-100"; complete "API-100"`. -/
theorem C1_witness :
    exclusivePresence (completeDispatch "API-100" sampleResult
      (registerDispatch "API-100" sampleActive emptyState)) :=
  C1_exclusive_presence _
    (ReachableNoRereg.complete _ _
      (ReachableNoRereg.register _ _ ReachableNoRereg.empty rfl))

-- ---------------------------------------------------------------------------
-- C2 — registerDispatch against an existing identifier
-- ---------------------------------------------------------------------------

/-- C2 (code evaluated at the failing input): registering `"API-100"` twice
does not fail — the second call silently overwrites the first record — and
the stored record is exactly the caller-supplied one: its status stays
`running` (not forced to `dispatched`) and its `dispatchedAt` stays the
caller's value (not the current time); the record has no attempt field to
default. This contradicts the claim and the repository's own
dispatch-state tests. -/
theorem C2_register_overwrites :
    mlookup (registerDispatch "API-100" sampleRunning
      (registerDispatch "API-100" sampleActive emptyState)).active "API-100"
      = some sampleRunning ∧
    sampleRunning.status ≠ ActiveStatus.dispatched ∧
    sampleRunning.dispatchedAt ≠ sampleActive.dispatchedAt := by
  refine ⟨rfl, by decide, by decide⟩

-- ---------------------------------------------------------------------------
-- C4 — readDispatchState failure model
-- ---------------------------------------------------------------------------

/-- C4 (confirmed): when the state file is absent `readDispatchState` returns
the empty document, and when the file exists but `JSON.parse` raises the
error is surfaced to the caller with the file content left unchanged. -/
theorem C4_readDispatchState (parseJson : String → Except String DispatchState)
    (file : Option String) :
    (file = none → readDispatchState parseJson file = (.ok emptyState, none)) ∧
    (∀ raw e, file = some raw → parseJson raw = .error e →
      readDispatchState parseJson file = (.error e, some raw)) := by
  constructor
  · rintro rfl
    rfl
  · rintro raw e rfl hp
    simp [readDispatchState, hp]

/-- C4 (witness): concrete evaluation of both branches — missing file and a
parse failure on `"not-json"`. -/
theorem C4_witness :
    readDispatchState badParse none = (.ok emptyState, none) ∧
    readDispatchState badParse (some "not-json")
      = (.error "SyntaxError: Unexpected token", some "not-json") :=
  ⟨(C4_readDispatchState badParse none).1 rfl,
   (C4_readDispatchState badParse (some "not-json")).2 "not-json" _ rfl rfl⟩

-- ---------------------------------------------------------------------------
-- C5 — pruneCompleted
-- ---------------------------------------------------------------------------

theorem mdel_not_mem {α : Type} {l : SMap α} {k : String}
    (h : k ∉ l.map Prod.fst) : mdel l k = l := by
  induction l with
  | nil => rfl
  | cons p t ih =>
    rcases p with ⟨a, b⟩
    simp only [List.map_cons, List.mem_cons] at h
    push_neg at h
    simp [mdel, List.filter_cons, Ne.symm h.1, ih h.2, mdel] at *
    exact ih h.2

/-- Characterization of the `pruneCompleted` loop: starting from a document
whose completed table is `pre ++ l` with pairwise-distinct keys, iterating
the loop body over `l` deletes exactly the stale entries of `l` and adds
their number to the accumulator. -/
theorem pruneLoop_spec (now maxAgeMs : Int) :
    ∀ (l pre : List (String × CompletedDispatch)) (s : DispatchState) (p : Nat),
    s.completed = pre ++ l →
    ((pre ++ l).map Prod.fst).Nodup →
    pruneLoop now maxAgeMs l s p =
      ({ s with completed :=
          pre ++ l.filter (fun e => !decide (now - e.2.completedAt > maxAgeMs)) },
       p + (l.filter (fun e => decide (now - e.2.completedAt > maxAgeMs))).length) := by
  intro l
  induction l with
  | nil =>
    intro pre s p hcomp _
    obtain ⟨sa, sc⟩ := s
    simp only [List.append_nil] at hcomp
    simp [pruneLoop, hcomp]
  | cons e t ih =>
    intro pre s p hcomp hnodup
    rcases e with ⟨key, entry⟩
    have hmap := hnodup
    rw [List.map_append, List.map_cons] at hmap
    rcases List.nodup_append.mp hmap with ⟨hpre, hconsnodup, hdisj⟩
    have hkt : key ∉ t.map Prod.fst := (List.nodup_cons.mp hconsnodup).1
    have hkpre : key ∉ pre.map Prod.fst := fun hmem => hdisj hmem (List.mem_cons_self _ _)
    by_cases hcond : now - entry.completedAt > maxAgeMs
    · have hdel : mdel s.completed key = pre ++ t := by
        rw [hcomp, mdel, List.filter_append]
        rw [show (pre.filter (fun p => !(p.1 == key))) = mdel pre key from rfl]
        rw [mdel_not_mem hkpre]
        simp only [List.filter_cons]
        simp only [beq_self_eq_true, Bool.not_true, if_neg]
        rw [show (t.filter (fun p => !(p.1 == key))) = mdel t key from rfl]
        rw [mdel_not_mem hkt]
        simp
      have hsub : ((pre ++ t).map Prod.fst).Nodup := by
        refine List.Nodup.sublist ?_ hnodup
        refine List.Sublist.map _ ?_
        exact List.Sublist.append_left ((List.Sublist.refl t).cons _) pre
      have hrec := ih pre { s with completed := mdel s.completed key } (p + 1)
        (by simpa using hdel) hsub
      simp only [pruneLoop, if_pos hcond, hrec]
      rw [Prod.ext_iff]
      constructor
      · simp [List.filter_cons, hcond]
      · simp [List.filter_cons, hcond]
        omega
    · have hassoc : s.completed = (pre ++ [(key, entry)]) ++ t := by
        rw [hcomp]
        simp
      have hnodup2 : (((pre ++ [(key, entry)]) ++ t).map Prod.fst).Nodup := by
        have : (pre ++ [(key, entry)]) ++ t = pre ++ ((key, entry) :: t) := by simp
        rw [this]
        exact hnodup
      have hrec := ih (pre ++ [(key, entry)]) s p hassoc hnodup2
      simp only [pruneLoop, if_neg hcond, hrec]
      rw [Prod.ext_iff]
      constructor
      · simp [List.filter_cons, hcond, List.append_assoc]
      · simp [List.filter_cons, hcond]

/-- C5 (confirmed): `pruneCompleted(maxAgeMs)` removes exactly the completed
records whose `completedAt` lies more than `maxAgeMs` before `now`, keeps
the remaining completed records unchanged, leaves `active` unchanged, and
returns the number of records removed. Stated for documents with pairwise
distinct completed keys (always true of a JS object). -/
theorem C5_pruneCompleted (now maxAgeMs : Int) (s : DispatchState)
    (hnodup : (s.completed.map Prod.fst).Nodup) :
    pruneCompleted now maxAgeMs s =
      ({ s with completed :=
          s.completed.filter (fun e => !decide (now - e.2.completedAt > maxAgeMs)) },
       (s.completed.filter (fun e => decide (now - e.2.completedAt > maxAgeMs))).length) := by
  have h := pruneLoop_spec now maxAgeMs s.completed [] s 0 (by simp) (by simpa using hnodup)
  simpa [pruneCompleted] using h

/-- C5 (witness): on a concrete document with one stale and one fresh
completed record, pruning removes exactly the stale one, keeps the fresh one
and the active table, and returns 1. -/
theorem C5_witness :
    pruneCompleted 10000 1000 sampleStateC
      = ({ sampleStateC with completed := [("NEW-1", freshEntry)] }, 1) := by
  rw [C5_pruneCompleted 10000 1000 sampleStateC (by decide)]
  rfl

-- ---------------------------------------------------------------------------
-- C10 — completeDispatch without an active record
-- ---------------------------------------------------------------------------

/-- C10 (counterexample): with an active record present but carrying no
`project`, and a caller-supplied result carrying `project = "proj-x"`, the
completed record's project is `"proj-x"` — taken from the result, not from
the present active record as the claim states. -/
theorem C10_counterexample :
    mlookup (registerDispatch "API-100" sampleActive emptyState).active "API-100"
      = some sampleActive ∧
    sampleActive.project = none ∧
    (mlookup (completeDispatch "API-100" sampleResultProj
        (registerDispatch "API-100" sampleActive emptyState)).completed "API-100").map
        CompletedDispatch.project
      = some (some "proj-x") := by
  refine ⟨rfl, rfl, rfl⟩

/-- C10 (amended): `completeDispatch` always succeeds and always writes a
completed record, removing any active record: when no active record exists
all fallback fields come from the caller-supplied result; when one exists,
`tier` comes from it and `project` comes from it only when it has one,
falling back to the result's (`active?.project ?? result.project`). -/
theorem C10_completeDispatch (issueIdentifier : String) (r : CompletedResult)
    (s : DispatchState) :
    (mlookup s.active issueIdentifier = none →
      mlookup (completeDispatch issueIdentifier r s).completed issueIdentifier =
        some { issueIdentifier := issueIdentifier, tier := r.tier, status := r.status,
               completedAt := r.completedAt, prUrl := r.prUrl, project := r.project }) ∧
    (∀ a, mlookup s.active issueIdentifier = some a →
      mlookup (completeDispatch issueIdentifier r s).completed issueIdentifier =
        some { issueIdentifier := issueIdentifier, tier := a.tier, status := r.status,
               completedAt := r.completedAt, prUrl := r.prUrl,
               project := a.project.orElse (fun _ => r.project) }) ∧
    mlookup (completeDispatch issueIdentifier r s).active issueIdentifier = none := by
  refine ⟨?_, ?_, ?_⟩
  · intro hm
    simp [completeDispatch, mlookup_mset, hm, Option.orElse]
  · intro a hm
    simp [completeDispatch, mlookup_mset, hm]
  · simp [completeDispatch, mlookup_mdel]

/-- C10 (witness): completing an identifier with no active record writes a
completed record with all fallback fields from the caller-supplied result. -/
theorem C10_witness :
    mlookup (completeDispatch "ABS-1" sampleResultProj emptyState).completed "ABS-1" =
      some { issueIdentifier := "ABS-1", tier := sampleResultProj.tier,
             status := sampleResultProj.status, completedAt := sampleResultProj.completedAt,
             prUrl := sampleResultProj.prUrl, project := sampleResultProj.project } :=
  (C10_completeDispatch "ABS-1" sampleResultProj emptyState).1 rfl

-- ---------------------------------------------------------------------------
-- C6 — watchdog single shot
-- ---------------------------------------------------------------------------

theorem wstep_killInv (w : Watchdog) (e : WEvent) (h : killInv w) : killInv (wstep w e) := by
  cases e <;>
    simp only [wstep, Watchdog.start, Watchdog.tick, Watchdog.stop, fireCheck,
      scheduleCheck, killInv] at h ⊢ <;>
    split_ifs <;> simp_all

theorem foldl_killInv (evs : List WEvent) (w : Watchdog) (h : killInv w) :
    killInv (evs.foldl wstep w) := by
  induction evs generalizing w with
  | nil => exact h
  | cons e rest ih => exact ih _ (wstep_killInv w e h)

/-- C6 (confirmed): over every interleaving of `start`, `tick`, `stop` and
timer firings, `onKill` is invoked at most once per `InactivityWatchdog`
instance, it is invoked only when `wasKilled` is true, and a deferred check
firing on a stopped instance invokes nothing. -/
theorem C6_watchdog_single_shot (inactivityMs now0 : Int) (evs : List WEvent) :
    (runWatchdog inactivityMs now0 evs).kills ≤ 1 ∧
    (0 < (runWatchdog inactivityMs now0 evs).kills →
      (runWatchdog inactivityMs now0 evs).killed = true) ∧
    (∀ (w : Watchdog) (now : Int) (o : KillOutcome), w.started = false →
      (wstep w (.fire now o)).kills = w.kills ∧ (wstep w (.fire now o)).killed = w.killed) := by
  have hinv : killInv (runWatchdog inactivityMs now0 evs) :=
    foldl_killInv evs (Watchdog.init inactivityMs now0) (by simp [killInv, Watchdog.init])
  rw [killInv] at hinv
  refine ⟨?_, ?_, ?_⟩
  · rw [hinv]
    split <;> simp
  · intro hpos
    rw [hinv] at hpos
    by_contra hne
    simp only [Bool.not_eq_true] at hne
    rw [hne] at hpos
    simp at hpos
  · intro w now o hst
    simp only [wstep]
    split
    · simp [fireCheck, hst]
    · exact ⟨rfl, rfl⟩

/-- C6 (witness): a start followed by a firing at the threshold kills exactly
once, and a check firing on a freshly constructed (stopped) instance leaves
the kill count at zero. -/
theorem C6_witness :
    (runWatchdog 120000 0 [.start 0, .fire 120000 .throwsSync]).kills ≤ 1 ∧
    (runWatchdog 120000 0 [.start 0, .fire 120000 .throwsSync]).killed = true ∧
    (wstep (Watchdog.init 120000 0) (.fire 5 .ok)).kills = 0 := by
  have h := C6_watchdog_single_shot 120000 0 [.start 0, .fire 120000 .throwsSync]
  refine ⟨h.1, h.2.1 (by decide), ?_⟩
  have h3 := (h.2.2 (Watchdog.init 120000 0) 5 .ok rfl).1
  rw [h3]
  rfl

-- ---------------------------------------------------------------------------
-- C7 — watchdog check algorithm
-- ---------------------------------------------------------------------------

/-- C7 (confirmed): when the deferred check fires on a started, not-yet-killed
watchdog with `silence = now - lastActivityAt`: if `silence ≥ inactivityMs`
it sets `killed`, invokes `onKill` once with reason `"inactivity"` and lets
no synchronous or asynchronous `onKill` error escape; otherwise it invokes
nothing and re-arms the timer for `max(1000, inactivityMs - silence)`. -/
theorem C7_watchdog_check (w : Watchdog) (now : Int) (o : KillOutcome)
    (hstarted : w.started = true) (hkilled : w.killed = false) :
    (w.inactivityMs ≤ now - w.lastActivityAt →
      fireCheck o now w =
        ({ w with
            timer := none
            killed := true
            kills := w.kills + 1
            lastKillReason := some "inactivity" }, swallowKillError o) ∧
      swallowKillError o = none) ∧
    (now - w.lastActivityAt < w.inactivityMs →
      fireCheck o now w =
        ({ w with timer := some (now + max 1000 (w.inactivityMs - (now - w.lastActivityAt))) },
          none) ∧
      (fireCheck o now w).1.kills = w.kills) := by
  constructor
  · intro hs
    constructor
    · simp [fireCheck, hstarted, hkilled, hs]
    · cases o <;> rfl
  · intro hs
    have hlt : ¬(w.inactivityMs ≤ now - w.lastActivityAt) := not_le.mpr hs
    constructor
    · simp [fireCheck, scheduleCheck, hstarted, hkilled, hlt]
    · simp [fireCheck, scheduleCheck, hstarted, hkilled, hlt]

/-- C7 (witness): on the concrete started watchdog `wdogW`, a check firing at
the threshold with an asynchronously-rejecting `onKill` kills once with
reason `"inactivity"` and no error escapes; a check firing 1 ms early
re-arms the timer for 1 ms later and invokes nothing. -/
theorem C7_witness :
    fireCheck .rejectsAsync 120000 wdogW
      = ({ wdogW with
          timer := none
          killed := true
          kills := 1
          lastKillReason := some "inactivity" }, none) ∧
    fireCheck .ok 119999 wdogW
      = ({ wdogW with timer := some 120999 }, none) := by
  constructor
  · have h := (C7_watchdog_check wdogW 120000 .rejectsAsync rfl rfl).1 (by decide)
    rw [h.2] at h
    exact h.1
  · have h := (C7_watchdog_check wdogW 119999 .ok rfl rfl).2 (by decide)
    have h1 := h.1
    rw [show wdogW.inactivityMs - (119999 - wdogW.lastActivityAt) = 1 from by decide] at h1
    simpa using h1

-- ---------------------------------------------------------------------------
-- C8 — runAgent retry policy
-- ---------------------------------------------------------------------------

/-- C8 (confirmed): `runAgent` performs at most 2 attempts; a second attempt
happens exactly when the first returned `success = false` with
`watchdogKilled = true`; any first attempt that is not a watchdog kill is
returned to the caller unchanged with no retry. -/
theorem C8_runAgent (runOnce : Nat → AgentRunResult) :
    (runAgent runOnce).2 ≤ 2 ∧
    ((runAgent runOnce).2 = 2 ↔
      ((runOnce 0).success = false ∧ (runOnce 0).watchdogKilled = true)) ∧
    ((runOnce 0).watchdogKilled = false → runAgent runOnce = (runOnce 0, 1)) ∧
    ((runOnce 0).success = false → (runOnce 0).watchdogKilled = true →
      runAgent runOnce = (runOnce 1, 2)) := by
  cases hs : (runOnce 0).success <;> cases hk : (runOnce 0).watchdogKilled <;>
    simp_all [runAgent, runAgentGo, maxAttempts]

/-- C8 (witness): on the concrete profile whose first attempt is watchdog
killed and whose second succeeds, `runAgent` returns the second result after
exactly 2 attempts. -/
theorem C8_witness :
    runAgent killedRun = (killedRun 1, 2) ∧ (runAgent killedRun).2 = 2 :=
  ⟨(C8_runAgent killedRun).2.2.2 rfl rfl,
   ((C8_runAgent killedRun).2.1).mpr ⟨rfl, rfl⟩⟩

-- ---------------------------------------------------------------------------
-- C9 — streaming callbacks
-- ---------------------------------------------------------------------------

/-- C9 (counterexample): a reasoning chunk whose trimmed text is exactly 10
characters long — at least 10, as the claim requires — is not emitted: the
code tests `text.length > 10`, strictly. -/
theorem C9_counterexample :
    (onReasoningStream (some "abcdefghij")).1 = [] ∧
    (jsTrim "abcdefghij").length = 10 := by
  constructor
  · rfl
  · decide

/-- C9 (amended): a reasoning chunk is emitted as a "thought" activity with
its body cut to 500 characters exactly when its trimmed text is strictly
longer than 10 characters; a partial-reply chunk only ticks the watchdog
and is never emitted. -/
theorem C9_streaming (payloadText : String) :
    (10 < (jsTrim payloadText).length →
      onReasoningStream (some payloadText)
        = ([Activity.thought (jsSlice500 (jsTrim payloadText))], true)) ∧
    ((jsTrim payloadText).length ≤ 10 →
      onReasoningStream (some payloadText) = ([], true)) ∧
    onReasoningStream none = ([], true) ∧
    (∀ p : Option String, onPartialReply p = ([], true)) := by
  refine ⟨?_, ?_, rfl, fun p => rfl⟩
  · intro h
    have hne : jsTrim payloadText ≠ "" := by
      intro he
      rw [he] at h
      exact absurd h (by decide)
    simp [onReasoningStream, hne, h]
  · intro h
    have hnl : ¬(10 < (jsTrim payloadText).length) := not_lt.mpr h
    simp [onReasoningStream, hnl]

/-- C9 (witness): the concrete 30-character reasoning chunk is emitted as a
thought with its trimmed text, and a concrete partial-reply chunk is not
emitted. -/
theorem C9_witness :
    onReasoningStream (some longReasoning)
      = ([Activity.thought (jsSlice500 (jsTrim longReasoning))], true) ∧
    onPartialReply (some longReasoning) = ([], true) :=
  ⟨(C9_streaming longReasoning).1 (by decide),
   (C9_streaming longReasoning).2.2.2 (some longReasoning)⟩

-- ---------------------------------------------------------------------------
-- C3 — CAS transitionDispatch (modelled from the spec)
-- ---------------------------------------------------------------------------

/-- C3 (confirmed, spec-modelled): `transitionDispatch` throws
`TransitionError` whenever the active record is missing, its status differs
from `expectedFrom`, or the edge is outside the §4.2 graph; in each failure
case the persisted document is unchanged by the locked mutate; on success
the status is set and the patch fields are applied to the stored record. -/
theorem C3_transitionDispatch (issueIdentifier : String) (expectedFrom toStatus : DStatus)
    (patch : Option TransitionPatch) (s : StateV2) :
    (mlookup s.active issueIdentifier = none →
      mutateStore (transitionDispatch issueIdentifier expectedFrom toStatus patch) s
        = (s, .error (.missing issueIdentifier))) ∧
    (∀ d, mlookup s.active issueIdentifier = some d → d.status ≠ expectedFrom →
      mutateStore (transitionDispatch issueIdentifier expectedFrom toStatus patch) s
        = (s, .error (.mismatch issueIdentifier expectedFrom d.status))) ∧
    (∀ d, mlookup s.active issueIdentifier = some d → d.status = expectedFrom →
      legalTransition expectedFrom toStatus = false →
      mutateStore (transitionDispatch issueIdentifier expectedFrom toStatus patch) s
        = (s, .error (.illegal issueIdentifier expectedFrom toStatus))) ∧
    (∀ d, mlookup s.active issueIdentifier = some d → d.status = expectedFrom →
      legalTransition expectedFrom toStatus = true →
      mutateStore (transitionDispatch issueIdentifier expectedFrom toStatus patch) s
        = ({ active := mset s.active issueIdentifier
              (applyPatch { d with status := toStatus } patch) },
           .ok (applyPatch { d with status := toStatus } patch))) := by
  refine ⟨?_, ?_, ?_, ?_⟩
  · intro hm
    simp [mutateStore, transitionDispatch, hm]
  · intro d hm hne
    simp [mutateStore, transitionDispatch, hm, hne]
  · intro d hm hst hleg
    simp [mutateStore, transitionDispatch, hm, hst, hleg]
  · intro d hm hst hleg
    simp [mutateStore, transitionDispatch, hm, hst, hleg]

/-- C3 (witness): on the concrete v2 document `sV2`, the CAS
`dispatched → working` with a worker-session-key patch succeeds and stores
the patched record; the CAS `working → auditing` fails with a mismatch and
leaves the document unchanged; `done` as target from `dispatched` fails as
illegal. -/
theorem C3_witness :
    mutateStore (transitionDispatch "API-100" .dispatched .working (some patchW)) sV2
      = ({ active := mset sV2.active "API-100"
            (applyPatch { dV2 with status := .working } (some patchW)) },
         .ok (applyPatch { dV2 with status := .working } (some patchW))) ∧
    mutateStore (transitionDispatch "API-100" .working .auditing none) sV2
      = (sV2, .error (.mismatch "API-100" .working .dispatched)) ∧
    mutateStore (transitionDispatch "API-100" .dispatched .done none) sV2
      = (sV2, .error (.illegal "API-100" .dispatched .done)) := by
  refine ⟨?_, ?_, ?_⟩
  · exact (C3_transitionDispatch "API-100" .dispatched .working (some patchW) sV2).2.2.2
      dV2 rfl rfl rfl
  · exact (C3_transitionDispatch "API-100" .working .auditing none sV2).2.1
      dV2 rfl (by decide)
  · exact (C3_transitionDispatch "API-100" .dispatched .done none sV2).2.2.1
      dV2 rfl rfl rfl

end OpenClawLinear
